import Mathlib

/-!
Verification of the crediflow_manager ledger/inventory core.

Shallow embedding of the TypeScript sources:
* `src/services/mockDb.ts` — `MockDbService`: `createTransaction`, `recordPayment`,
  `recordExpense`, `transferProduct` over in-memory collections.
* `src/components/CustomerLedger.tsx` — `loadCustomerData`: the statement
  computation (merge, chronological sort, running balance, summary totals).
* `src/components/POS.tsx` — `handleCheckout`: building a sale transaction
  with derived `balance` and `status`.

Modelling choices:
* JS numbers that hold money/stock quantities are modelled as `Int` (all the
  arithmetic involved is addition/subtraction/comparison).
* Event dates (ISO strings compared through `new Date(x).getTime()`) are
  modelled as the resulting timestamp, an `Int`.
* Non-deterministic environment inputs (generated ids, `Date.now()`) are
  explicit parameters.
* `Array.prototype.sort` is required to be stable by the ECMAScript standard;
  it is modelled by the stable insertion sort `List.insertionSort`.
* The activity log, cloud sync and localStorage persistence are side channels
  not touched by any claim and are not modelled.
-/

namespace Crediflow

/-- Customer type from `src/types.ts` (`CustomerType`). -/
inductive CustomerType where
  | RETAIL
  | WHOLESALE
deriving DecidableEq, Repr

/-- Sale status from `src/types.ts` (`Transaction.status`). -/
inductive SaleStatus where
  | PAID
  | PARTIAL
  | UNPAID
deriving DecidableEq, Repr

/-- Product record from `src/types.ts`. -/
structure Product where
  id : String
  shopId : String
  name : String
  category : String
  price : Int
  wholesalePrice : Int
  stock : Int
  description : Option String
deriving DecidableEq, Repr

/-- Sale line item from `src/types.ts` (`Transaction.items` entries). -/
structure SaleItem where
  productId : String
  name : String
  quantity : Int
  price : Int
deriving DecidableEq, Repr

/-- Sale transaction record from `src/types.ts`. -/
structure Transaction where
  id : String
  shopId : String
  customerId : String
  customerName : String
  date : Int
  items : List SaleItem
  totalAmount : Int
  paidAmount : Int
  balance : Int
  status : SaleStatus
deriving DecidableEq, Repr

/-- Payment record from `src/types.ts`. -/
structure PaymentRecord where
  id : String
  shopId : String
  customerId : String
  amount : Int
  date : Int
deriving DecidableEq, Repr

/-- Expense record from `src/types.ts`. -/
structure ExpenseRecord where
  id : String
  shopId : String
  customerId : String
  description : String
  amount : Int
  date : Int
deriving DecidableEq, Repr

/-- Customer record from `src/types.ts` (fields relevant to the ledger). -/
structure Customer where
  id : String
  name : String
  phone : String
  type : CustomerType
  totalDebt : Int
  creditLimit : Option Int
deriving DecidableEq, Repr

/-- The in-memory collections held by `MockDbService` (`src/services/mockDb.ts`).
The activity log is omitted (never read by any verified property). -/
structure DbState where
  products : List Product
  customers : List Customer
  transactions : List Transaction
  payments : List PaymentRecord
  expenses : List ExpenseRecord
deriving DecidableEq, Repr

/-- Replace the first element satisfying `q` by its image under `f`; identity
when no element matches.  This is the functional rendering of the TS pattern
`const i = xs.findIndex(pred); if (i > -1) xs[i] = f(xs[i])`. -/
def setFirst (q : α → Bool) (f : α → α) : List α → List α
  | [] => []
  | x :: xs => if q x then f x :: xs else x :: setFirst q f xs

/-- `MockDbService.createTransaction` (`src/services/mockDb.ts` lines 326-349):
prepend the transaction, decrement stock for each line item whose product id
matches some product (missing ids are silently skipped), and add the balance
to the customer's debt only when `balance > 0` and the customer exists. -/
def createTransaction (st : DbState) (t : Transaction) : DbState :=
  { st with
    transactions := t :: st.transactions,
    products := t.items.foldl
      (fun ps item => setFirst (fun p => p.id == item.productId)
        (fun p => { p with stock := p.stock - item.quantity }) ps)
      st.products,
    customers :=
      if 0 < t.balance then
        setFirst (fun c => c.id == t.customerId)
          (fun c => { c with totalDebt := c.totalDebt + t.balance }) st.customers
      else st.customers }

/-- `MockDbService.recordPayment` (`src/services/mockDb.ts` lines 351-370):
if the customer exists, subtract the amount from its debt, clamping at 0,
and append a payment record; otherwise a silent no-op.  `pid` stands for the
randomly generated id and `date` for `Date.now()`. -/
def recordPayment (st : DbState) (customerId : String) (amount : Int)
    (shopId : Option String) (pid : String) (date : Int) : DbState :=
  match st.customers.find? (fun c => c.id == customerId) with
  | some _ =>
    { st with
      customers := setFirst (fun c => c.id == customerId)
        (fun c => { c with totalDebt :=
          if c.totalDebt - amount < 0 then 0 else c.totalDebt - amount })
        st.customers,
      payments := st.payments ++
        [{ id := pid, shopId := shopId.getD "unknown", customerId := customerId,
           amount := amount, date := date }] }
  | none => st

/-- `MockDbService.recordExpense` (`src/services/mockDb.ts` lines 372-391):
if the customer exists, add the amount to its debt (no clamping) and append
an expense record; otherwise a silent no-op. -/
def recordExpense (st : DbState) (customerId : String) (description : String)
    (amount : Int) (date : Int) (shopId : Option String) (eid : String) : DbState :=
  match st.customers.find? (fun c => c.id == customerId) with
  | some _ =>
    { st with
      customers := setFirst (fun c => c.id == customerId)
        (fun c => { c with totalDebt := c.totalDebt + amount }) st.customers,
      expenses := st.expenses ++
        [{ id := eid, shopId := shopId.getD "unknown", customerId := customerId,
           description := description, amount := amount, date := date }] }
  | none => st

/-- Errors thrown by `MockDbService.transferProduct`. -/
inductive TransferError where
  | productNotFound
  | insufficientStock
deriving DecidableEq, Repr

/-- `MockDbService.transferProduct` (`src/services/mockDb.ts` lines 275-306):
locate the source by `(shopId, name)`, reject when missing or when
`stock < quantity`; otherwise deduct from the source, then either increment
an existing `(toShopId, name)` product or push a clone of the source with a
fresh id and `stock = quantity`.  The TS code clones the source after the
deduction, but only the `stock` field differs and it is overwritten, so
cloning from `src` is equivalent.  `newId` stands for the generated id.
The TS method throws before any mutation on the error paths, so the
`Except.error` results carry no modified product list. -/
def transferProduct (products : List Product) (productName fromShopId toShopId : String)
    (quantity : Int) (newId : String) : Except TransferError (List Product) :=
  match products.find? (fun p => p.shopId == fromShopId && p.name == productName) with
  | none => .error .productNotFound
  | some src =>
    if src.stock < quantity then .error .insufficientStock
    else
      let afterDeduct := setFirst
        (fun p => p.shopId == fromShopId && p.name == productName)
        (fun p => { p with stock := p.stock - quantity }) products
      match afterDeduct.find? (fun p => p.shopId == toShopId && p.name == productName) with
      | some _ => .ok (setFirst
          (fun p => p.shopId == toShopId && p.name == productName)
          (fun p => { p with stock := p.stock + quantity }) afterDeduct)
      | none => .ok (afterDeduct ++
          [{ src with id := newId, shopId := toShopId, stock := quantity }])

/-- Statement row kind from `CustomerLedger.tsx` (`StatementItem.type`). -/
inductive StatementType where
  | SALE
  | PAYMENT
  | EXPENSE
deriving DecidableEq, Repr

/-- Statement row from `CustomerLedger.tsx` (`loadCustomerData`).  The purely
presentational `description` and `shopName` strings are omitted. -/
structure StatementItem where
  id : String
  date : Int
  type : StatementType
  amount : Int
  balanceChange : Int
  shopId : String
  runningBalance : Int
deriving DecidableEq, Repr

/-- Statement row built from a sale (`CustomerLedger.tsx` lines 129-139):
`amount` is the gross total, `balanceChange` the unpaid balance. -/
def saleToItem (t : Transaction) : StatementItem :=
  { id := t.id, date := t.date, type := .SALE, amount := t.totalAmount,
    balanceChange := t.balance, shopId := t.shopId, runningBalance := 0 }

/-- Statement row built from a payment (`CustomerLedger.tsx` lines 140-150). -/
def paymentToItem (p : PaymentRecord) : StatementItem :=
  { id := p.id, date := p.date, type := .PAYMENT, amount := p.amount,
    balanceChange := -p.amount, shopId := p.shopId, runningBalance := 0 }

/-- Statement row built from an expense (`CustomerLedger.tsx` lines 151-161). -/
def expenseToItem (e : ExpenseRecord) : StatementItem :=
  { id := e.id, date := e.date, type := .EXPENSE, amount := e.amount,
    balanceChange := e.amount, shopId := e.shopId, runningBalance := 0 }

/-- The unsorted concatenation of the customer's three event streams
(`CustomerLedger.tsx` lines 128-162, fed by the id-filtered getters
`getTransactionsByCustomer` / `getPaymentsByCustomer` /
`getExpensesByCustomer` of `mockDb.ts`). -/
def mergedItems (st : DbState) (custId : String) : List StatementItem :=
  (st.transactions.filter (fun t => t.customerId == custId)).map saleToItem
    ++ (st.payments.filter (fun p => p.customerId == custId)).map paymentToItem
    ++ (st.expenses.filter (fun e => e.customerId == custId)).map expenseToItem

/-- The chronological sort of `CustomerLedger.tsx` line 165:
`items.sort((a, b) => dateA - dateB)`.  ECMAScript requires this sort to be
stable, which insertion sort realises. -/
def sortStatement (items : List StatementItem) : List StatementItem :=
  items.insertionSort (fun a b => a.date ≤ b.date)

instance : IsTotal StatementItem (fun a b => a.date ≤ b.date) :=
  ⟨fun a b => Int.le_total a.date b.date⟩

instance : IsTrans StatementItem (fun a b => a.date ≤ b.date) :=
  ⟨fun _ _ _ hab hbc => le_trans hab hbc⟩

/-- The running-balance pass of `CustomerLedger.tsx` lines 167-178:
one walk accumulating `currentBalance` into each row. -/
def withRunning (bal : Int) : List StatementItem → List StatementItem
  | [] => []
  | i :: is =>
    { i with runningBalance := bal + i.balanceChange }
      :: withRunning (bal + i.balanceChange) is

/-- The full statement computation of `loadCustomerData`
(`CustomerLedger.tsx` lines 93-183), restricted to its ledger output. -/
def computeStatement (st : DbState) (custId : String) : List StatementItem :=
  withRunning 0 (sortStatement (mergedItems st custId))

/-- The `(totalBilled, totalPaid)` summary accumulated in the same pass
(`CustomerLedger.tsx` lines 168-181): sales and expenses add their `amount`
to `totalBilled`, payments add theirs to `totalPaid`. -/
def statementSummary (st : DbState) (custId : String) : Int × Int :=
  (sortStatement (mergedItems st custId)).foldl
    (fun acc i =>
      match i.type with
      | .SALE => (acc.1 + i.amount, acc.2)
      | .EXPENSE => (acc.1 + i.amount, acc.2)
      | .PAYMENT => (acc.1, acc.2 + i.amount))
    (0, 0)

/-- Running balance of the last statement row, `0` for an empty statement. -/
def lastRunning (l : List StatementItem) : Int :=
  match l.getLast? with
  | some i => i.runningBalance
  | none => 0

/-- Forget the `runningBalance` column (used to compare statement rows with
the raw merged rows, whose running balances are still the placeholder 0). -/
def dropRunning (i : StatementItem) : StatementItem :=
  { i with runningBalance := 0 }

/-- Modelled from the spec: the prefix sums of a list of contributions
("runningBalance is the prefix sum of these contributions").  Used as the
specification side of claim C3. -/
def prefixSumsFrom (acc : Int) : List Int → List Int
  | [] => []
  | x :: xs => (acc + x) :: prefixSumsFrom (acc + x) xs

/-- Modelled from the spec: prefix sums starting from 0. -/
def prefixSums : List Int → List Int := prefixSumsFrom 0

/-- The transaction assembled by `handleCheckout` (`src/components/POS.tsx`
lines 54-87): `balance = total - paid` and
`status = balance <= 0 ? PAID : (paid === 0 ? UNPAID : PARTIAL)`. -/
def handleCheckoutTransaction (id shopId customerId customerName : String)
    (date : Int) (items : List SaleItem) (total paid : Int) : Transaction :=
  { id := id, shopId := shopId, customerId := customerId,
    customerName := customerName, date := date, items := items,
    totalAmount := total, paidAmount := paid, balance := total - paid,
    status :=
      if total - paid ≤ 0 then .PAID
      else if paid == 0 then .UNPAID
      else .PARTIAL }

/-- A ledger operation issued against the service, with all environment
inputs (generated ids, clock reads) made explicit. -/
inductive Op where
  | sale (t : Transaction)
  | payment (customerId : String) (amount : Int) (shopId : Option String)
      (pid : String) (date : Int)
  | expense (customerId : String) (description : String) (amount : Int)
      (date : Int) (shopId : Option String) (eid : String)

/-- Apply one operation to the service state. -/
def applyOp (st : DbState) : Op → DbState
  | .sale t => createTransaction st t
  | .payment customerId amount shopId pid date =>
      recordPayment st customerId amount shopId pid date
  | .expense customerId description amount date shopId eid =>
      recordExpense st customerId description amount date shopId eid

/-- Apply a sequence of operations in order. -/
def runOps (st : DbState) (ops : List Op) : DbState := ops.foldl applyOp st

/-- The projection of an operation onto one customer's ledger: the balance of
a sale, the amount of a payment, the amount of an expense. -/
inductive CustEvent where
  | sale (balance : Int)
  | payment (amount : Int)
  | expense (amount : Int)
deriving DecidableEq, Repr

/-- Project an operation onto customer `cid`; `none` when it concerns a
different customer. -/
def opFor (cid : String) : Op → Option CustEvent
  | .sale t => if t.customerId == cid then some (.sale t.balance) else none
  | .payment c a _ _ _ => if c == cid then some (.payment a) else none
  | .expense c _ a _ _ _ => if c == cid then some (.expense a) else none

/-- The subsequence of events of an operation list that concern customer `cid`. -/
def eventsOf (cid : String) (ops : List Op) : List CustEvent :=
  ops.filterMap (opFor cid)

/-- One debt update step, exactly as the code performs it: a sale adds its
balance only when positive, a payment subtracts clamping at 0, an expense
adds unconditionally. -/
def evStep (d : Int) : CustEvent → Int
  | .sale b => if 0 < b then d + b else d
  | .payment a => if d - a < 0 then 0 else d - a
  | .expense a => d + a

/-- Replay a customer's events through the code's debt updates. -/
def debtFold (d : Int) (evs : List CustEvent) : Int := evs.foldl evStep d

/-- Modelled from the spec: one debt update step as claim C2 words it — sales
and expenses contribute exactly, and the total is "floored at 0 only by
explicit payment-overpay clamping".  Differs from `evStep` on sales with a
negative balance. -/
def evStepSpec (d : Int) : CustEvent → Int
  | .sale b => d + b
  | .payment a => if d - a < 0 then 0 else d - a
  | .expense a => d + a

/-- Modelled from the spec: replay of claim C2's debt equation. -/
def debtSpecFold (d : Int) (evs : List CustEvent) : Int := evs.foldl evStepSpec d

/-- The signed ledger contribution of an event: `sale.balance`,
`-payment.amount`, `+expense.amount`. -/
def contrib : CustEvent → Int
  | .sale b => b
  | .payment a => -a
  | .expense a => a

/-- Plain signed sum of a customer's event contributions. -/
def plainSum (evs : List CustEvent) : Int := (evs.map contrib).sum

/-- Starting from debt `d`, no event of the list triggers the code's
divergences from the plain sum: every sale balance is nonnegative and no
payment exceeds the debt current at its turn. -/
def noClampFrom (d : Int) : List CustEvent → Bool
  | [] => true
  | ev :: evs =>
    (match ev with
     | .sale b => decide (0 ≤ b)
     | .payment a => decide (a ≤ d)
     | .expense _ => true) && noClampFrom (evStep d ev) evs

/-- Total debt of the first customer with id `cid`, `0` when absent. -/
def debtOf (st : DbState) (cid : String) : Int :=
  match st.customers.find? (fun c => c.id == cid) with
  | some c => c.totalDebt
  | none => 0

/-- Whether a customer with id `cid` exists in the state. -/
def existsCustomer (st : DbState) (cid : String) : Bool :=
  (st.customers.find? (fun c => c.id == cid)).isSome

/-- Sum of `balance` over the customer's recorded sales. -/
def saleSum (st : DbState) (cid : String) : Int :=
  ((st.transactions.filter (fun t => t.customerId == cid)).map (fun t => t.balance)).sum

/-- Sum of `amount` over the customer's recorded payments. -/
def paySum (st : DbState) (cid : String) : Int :=
  ((st.payments.filter (fun p => p.customerId == cid)).map (fun p => p.amount)).sum

/-- Sum of `amount` over the customer's recorded expenses. -/
def expSum (st : DbState) (cid : String) : Int :=
  ((st.expenses.filter (fun e => e.customerId == cid)).map (fun e => e.amount)).sum

/-- The signed ledger sum `Σ sale.balance − Σ payment.amount + Σ expense.amount`
over the customer's recorded events. -/
def ledgerSum (st : DbState) (cid : String) : Int :=
  saleSum st cid - paySum st cid + expSum st cid

/-- Sum of `stock` over the products selected by `pred`. -/
def sumStockBy (pred : Product → Bool) (l : List Product) : Int :=
  (l.map (fun p => if pred p then p.stock else 0)).sum

/-- Sum of the `balanceChange` column of statement rows. -/
def changesSum (l : List StatementItem) : Int :=
  (l.map (fun i => i.balanceChange)).sum

/-- The `totalBilled` contribution of statement rows: sales and expenses add
their `amount`, payments add nothing. -/
def billedOf (l : List StatementItem) : Int :=
  (l.map (fun i => match i.type with | .PAYMENT => 0 | .SALE => i.amount | .EXPENSE => i.amount)).sum

/-- The `totalPaid` contribution of statement rows: payments add their
`amount`, other rows add nothing. -/
def paidOf (l : List StatementItem) : Int :=
  (l.map (fun i => match i.type with | .PAYMENT => i.amount | .SALE => 0 | .EXPENSE => 0)).sum

/-- A wholesale customer with no debt, used as a concrete test fixture. -/
def custC1 : Customer :=
  { id := "c1", name := "Rahul Kumar", phone := "0771234567",
    type := .WHOLESALE, totalDebt := 0, creditLimit := some 50000 }

/-- A concrete product in shop1, used as a transfer fixture. -/
def prodShirt : Product :=
  { id := "1", shopId := "shop1", name := "Premium Cotton Shirt",
    category := "Clothing", price := 1200, wholesalePrice := 800, stock := 150,
    description := none }

/-- A concrete product in shop2 with the same name, used as a transfer fixture. -/
def prodShirt2 : Product :=
  { id := "2", shopId := "shop2", name := "Premium Cotton Shirt",
    category := "Clothing", price := 1200, wholesalePrice := 800, stock := 20,
    description := none }

/-- A clean concrete state: one customer with zero debt, one product, and no
recorded events. -/
def baseState : DbState :=
  { products := [prodShirt], customers := [custC1],
    transactions := [], payments := [], expenses := [] }

/-- A concrete sale transaction fixture: total 8000, paid 3000, balance 5000. -/
def saleS1 : Transaction :=
  { id := "TRX-1", shopId := "shop1", customerId := "c1",
    customerName := "Rahul Kumar", date := 10, items := [],
    totalAmount := 8000, paidAmount := 3000, balance := 5000, status := .PARTIAL }

/-- A concrete overpaid sale fixture: total 10, paid 15, balance -5. -/
def saleOverpaid : Transaction :=
  { id := "TRX-2", shopId := "shop1", customerId := "c1",
    customerName := "Rahul Kumar", date := 20, items := [],
    totalAmount := 10, paidAmount := 15, balance := -5, status := .PAID }

/-- A concrete sale fixture whose only line item references a product id that
exists in no shop. -/
def saleMissingProduct : Transaction :=
  { id := "TRX-3", shopId := "shop1", customerId := "c1",
    customerName := "Rahul Kumar", date := 30,
    items := [{ productId := "p9", name := "Ghost", quantity := 3, price := 100 }],
    totalAmount := 300, paidAmount := 200, balance := 100, status := .PARTIAL }

end Crediflow

namespace Crediflow

/-! ### Generic lemmas about `setFirst` and `List.find?` -/

theorem setFirst_of_find?_none {α : Type} {q : α → Bool} {f : α → α}
    {l : List α} (h : l.find? q = none) : setFirst q f l = l := by
  induction l with
  | nil => rfl
  | cons x xs ih =>
    cases hx : q x with
    | true =>
      rw [List.find?_cons_of_pos _ hx] at h
      exact absurd h (by simp)
    | false =>
      rw [List.find?_cons, hx] at h
      simp [setFirst, hx, ih h]

theorem find?_setFirst_same {α : Type} (q : α → Bool) (f : α → α)
    (hf : ∀ a, q (f a) = q a) (l : List α) :
    (setFirst q f l).find? q = (l.find? q).map f := by
  induction l with
  | nil => rfl
  | cons x xs ih =>
    cases hx : q x with
    | true =>
      have hfx : q (f x) = true := by rw [hf]; exact hx
      simp [setFirst, hx, List.find?_cons, hfx]
    | false =>
      simp [setFirst, hx, List.find?_cons, ih]

theorem find?_setFirst_other {α : Type} (q r : α → Bool) (f : α → α)
    (hqr : ∀ a, q a = true → r a = false) (hrf : ∀ a, r (f a) = r a)
    (l : List α) : (setFirst q f l).find? r = l.find? r := by
  induction l with
  | nil => rfl
  | cons x xs ih =>
    cases hx : q x with
    | true =>
      have hrx : r x = false := hqr x hx
      have hrfx : r (f x) = false := by rw [hrf]; exact hrx
      simp [setFirst, hx, List.find?_cons, hrx, hrfx]
    | false =>
      cases hrx : r x with
      | true =>
        simp [setFirst, hx, List.find?_cons, hrx]
      | false =>
        simp [setFirst, hx, List.find?_cons, hrx, ih]

/-! ### Unfolded equations for the mutating operations -/

theorem recordPayment_found (st : DbState) (cid : String) (a : Int)
    (sh : Option String) (pid : String) (d : Int) (c : Customer)
    (hf : st.customers.find? (fun x => x.id == cid) = some c) :
    recordPayment st cid a sh pid d =
      { st with
        customers := setFirst (fun x => x.id == cid)
          (fun x => { x with totalDebt :=
            if x.totalDebt - a < 0 then 0 else x.totalDebt - a }) st.customers,
        payments := st.payments ++
          [{ id := pid, shopId := sh.getD "unknown", customerId := cid,
             amount := a, date := d }] } := by
  simp [recordPayment, hf]

theorem recordPayment_notFound (st : DbState) (cid : String) (a : Int)
    (sh : Option String) (pid : String) (d : Int)
    (hf : st.customers.find? (fun x => x.id == cid) = none) :
    recordPayment st cid a sh pid d = st := by
  simp [recordPayment, hf]

theorem recordExpense_found (st : DbState) (cid : String) (desc : String)
    (a : Int) (d : Int) (sh : Option String) (eid : String) (c : Customer)
    (hf : st.customers.find? (fun x => x.id == cid) = some c) :
    recordExpense st cid desc a d sh eid =
      { st with
        customers := setFirst (fun x => x.id == cid)
          (fun x => { x with totalDebt := x.totalDebt + a }) st.customers,
        expenses := st.expenses ++
          [{ id := eid, shopId := sh.getD "unknown", customerId := cid,
             description := desc, amount := a, date := d }] } := by
  simp [recordExpense, hf]

theorem recordExpense_notFound (st : DbState) (cid : String) (desc : String)
    (a : Int) (d : Int) (sh : Option String) (eid : String)
    (hf : st.customers.find? (fun x => x.id == cid) = none) :
    recordExpense st cid desc a d sh eid = st := by
  simp [recordExpense, hf]

/-! ### Effect of each operation on one customer's cached debt -/

theorem find?_customers_createTransaction_self (st : DbState) (t : Transaction)
    (hb : 0 < t.balance) :
    (createTransaction st t).customers.find? (fun c => c.id == t.customerId) =
      (st.customers.find? (fun c => c.id == t.customerId)).map
        (fun c => { c with totalDebt := c.totalDebt + t.balance }) := by
  have hcu : (createTransaction st t).customers =
      (if 0 < t.balance then
        setFirst (fun c => c.id == t.customerId)
          (fun c => { c with totalDebt := c.totalDebt + t.balance }) st.customers
      else st.customers) := rfl
  rw [hcu, if_pos hb,
    find?_setFirst_same (fun (c : Customer) => c.id == t.customerId)
      (fun (c : Customer) => { c with totalDebt := c.totalDebt + t.balance }) (fun a => rfl)]

theorem customers_createTransaction_nopos (st : DbState) (t : Transaction)
    (hb : ¬ 0 < t.balance) :
    (createTransaction st t).customers = st.customers := by
  have hcu : (createTransaction st t).customers =
      (if 0 < t.balance then
        setFirst (fun c => c.id == t.customerId)
          (fun c => { c with totalDebt := c.totalDebt + t.balance }) st.customers
      else st.customers) := rfl
  rw [hcu, if_neg hb]

theorem find?_customers_createTransaction_other (st : DbState) (t : Transaction)
    (cid : String) (hne : (t.customerId == cid) = false) :
    (createTransaction st t).customers.find? (fun c => c.id == cid) =
      st.customers.find? (fun c => c.id == cid) := by
  have hcu : (createTransaction st t).customers =
      (if 0 < t.balance then
        setFirst (fun c => c.id == t.customerId)
          (fun c => { c with totalDebt := c.totalDebt + t.balance }) st.customers
      else st.customers) := rfl
  rw [hcu]
  by_cases hb : 0 < t.balance
  · rw [if_pos hb]
    apply find?_setFirst_other
    · intro a ha
      have h1 : a.id = t.customerId := by simpa using ha
      have h2 : t.customerId ≠ cid := by simpa using hne
      simp [h1, h2]
    · intro a
      rfl
  · rw [if_neg hb]

theorem debtOf_createTransaction_self (st : DbState) (t : Transaction)
    (h : existsCustomer st t.customerId = true) :
    debtOf (createTransaction st t) t.customerId =
      (if 0 < t.balance then debtOf st t.customerId + t.balance
       else debtOf st t.customerId) := by
  obtain ⟨c, hc⟩ := Option.isSome_iff_exists.mp h
  by_cases hb : 0 < t.balance
  · rw [if_pos hb]
    unfold debtOf
    rw [find?_customers_createTransaction_self st t hb, hc]
    rfl
  · rw [if_neg hb]
    unfold debtOf
    rw [customers_createTransaction_nopos st t hb]

theorem debtOf_createTransaction_other (st : DbState) (t : Transaction)
    (cid : String) (hne : (t.customerId == cid) = false) :
    debtOf (createTransaction st t) cid = debtOf st cid := by
  unfold debtOf
  rw [find?_customers_createTransaction_other st t cid hne]

theorem debtOf_recordPayment_self (st : DbState) (cid : String) (a : Int)
    (sh : Option String) (pid : String) (d : Int)
    (h : existsCustomer st cid = true) :
    debtOf (recordPayment st cid a sh pid d) cid =
      (if debtOf st cid - a < 0 then 0 else debtOf st cid - a) := by
  obtain ⟨c, hc⟩ := Option.isSome_iff_exists.mp h
  rw [recordPayment_found st cid a sh pid d c hc]
  unfold debtOf
  simp only []
  rw [find?_setFirst_same (fun (x : Customer) => x.id == cid)
    (fun (x : Customer) => { x with totalDebt := if x.totalDebt - a < 0 then 0 else x.totalDebt - a })
    (fun x => rfl), hc]
  simp

theorem debtOf_recordPayment_other (st : DbState) (cid : String) (a : Int)
    (sh : Option String) (pid : String) (d : Int) (cid' : String)
    (hne : (cid == cid') = false) :
    debtOf (recordPayment st cid a sh pid d) cid' = debtOf st cid' := by
  cases hf : st.customers.find? (fun x => x.id == cid) with
  | none => rw [recordPayment_notFound st cid a sh pid d hf]
  | some c =>
    rw [recordPayment_found st cid a sh pid d c hf]
    unfold debtOf
    simp only []
    rw [find?_setFirst_other (fun (x : Customer) => x.id == cid) (fun (x : Customer) => x.id == cid')
      (fun (x : Customer) => { x with totalDebt := if x.totalDebt - a < 0 then 0 else x.totalDebt - a })]
    · intro x hx
      have h1 : x.id = cid := by simpa using hx
      have h2 : cid ≠ cid' := by simpa using hne
      simp [h1, h2]
    · intro x
      rfl

theorem debtOf_recordExpense_self (st : DbState) (cid : String) (desc : String)
    (a : Int) (d : Int) (sh : Option String) (eid : String)
    (h : existsCustomer st cid = true) :
    debtOf (recordExpense st cid desc a d sh eid) cid = debtOf st cid + a := by
  obtain ⟨c, hc⟩ := Option.isSome_iff_exists.mp h
  rw [recordExpense_found st cid desc a d sh eid c hc]
  unfold debtOf
  simp only []
  rw [find?_setFirst_same (fun (x : Customer) => x.id == cid)
    (fun (x : Customer) => { x with totalDebt := x.totalDebt + a })
    (fun x => rfl), hc]
  simp

theorem debtOf_recordExpense_other (st : DbState) (cid : String) (desc : String)
    (a : Int) (d : Int) (sh : Option String) (eid : String) (cid' : String)
    (hne : (cid == cid') = false) :
    debtOf (recordExpense st cid desc a d sh eid) cid' = debtOf st cid' := by
  cases hf : st.customers.find? (fun x => x.id == cid) with
  | none => rw [recordExpense_notFound st cid desc a d sh eid hf]
  | some c =>
    rw [recordExpense_found st cid desc a d sh eid c hf]
    unfold debtOf
    simp only []
    rw [find?_setFirst_other (fun (x : Customer) => x.id == cid) (fun (x : Customer) => x.id == cid')
      (fun (x : Customer) => { x with totalDebt := x.totalDebt + a })]
    · intro x hx
      have h1 : x.id = cid := by simpa using hx
      have h2 : cid ≠ cid' := by simpa using hne
      simp [h1, h2]
    · intro x
      rfl

theorem existsCustomer_applyOp (st : DbState) (op : Op) (cid : String) :
    existsCustomer (applyOp st op) cid = existsCustomer st cid := by
  cases op with
  | sale t =>
    show existsCustomer (createTransaction st t) cid = _
    cases hc : t.customerId == cid with
    | true =>
      have hcid : t.customerId = cid := by simpa using hc
      subst hcid
      by_cases hb : 0 < t.balance
      · unfold existsCustomer
        rw [find?_customers_createTransaction_self st t hb]
        simp
      · unfold existsCustomer
        rw [customers_createTransaction_nopos st t hb]
    | false =>
      unfold existsCustomer
      rw [find?_customers_createTransaction_other st t cid hc]
  | payment c0 a sh pid d =>
    show existsCustomer (recordPayment st c0 a sh pid d) cid = _
    cases hf : st.customers.find? (fun x => x.id == c0) with
    | none => rw [recordPayment_notFound st c0 a sh pid d hf]
    | some c =>
      rw [recordPayment_found st c0 a sh pid d c hf]
      unfold existsCustomer
      simp only []
      cases hc : c0 == cid with
      | true =>
        have hcid : c0 = cid := by simpa using hc
        subst hcid
        rw [find?_setFirst_same (fun (x : Customer) => x.id == c0)
          (fun (x : Customer) => { x with totalDebt := if x.totalDebt - a < 0 then 0 else x.totalDebt - a })
          (fun x => rfl)]
        simp
      | false =>
        rw [find?_setFirst_other (fun (x : Customer) => x.id == c0) (fun (x : Customer) => x.id == cid)
          (fun (x : Customer) => { x with totalDebt := if x.totalDebt - a < 0 then 0 else x.totalDebt - a })]
        · intro x hx
          have h1 : x.id = c0 := by simpa using hx
          have h2 : c0 ≠ cid := by simpa using hc
          simp [h1, h2]
        · intro x
          rfl
  | expense c0 desc a d sh eid =>
    show existsCustomer (recordExpense st c0 desc a d sh eid) cid = _
    cases hf : st.customers.find? (fun x => x.id == c0) with
    | none => rw [recordExpense_notFound st c0 desc a d sh eid hf]
    | some c =>
      rw [recordExpense_found st c0 desc a d sh eid c hf]
      unfold existsCustomer
      simp only []
      cases hc : c0 == cid with
      | true =>
        have hcid : c0 = cid := by simpa using hc
        subst hcid
        rw [find?_setFirst_same (fun (x : Customer) => x.id == c0)
          (fun (x : Customer) => { x with totalDebt := x.totalDebt + a })
          (fun x => rfl)]
        simp
      | false =>
        rw [find?_setFirst_other (fun (x : Customer) => x.id == c0) (fun (x : Customer) => x.id == cid)
          (fun (x : Customer) => { x with totalDebt := x.totalDebt + a })]
        · intro x hx
          have h1 : x.id = c0 := by simpa using hx
          have h2 : c0 ≠ cid := by simpa using hc
          simp [h1, h2]
        · intro x
          rfl

theorem debtOf_applyOp (st : DbState) (op : Op) (cid : String)
    (h : existsCustomer st cid = true) :
    debtOf (applyOp st op) cid =
      (match opFor cid op with
       | none => debtOf st cid
       | some ev => evStep (debtOf st cid) ev) := by
  cases op with
  | sale t =>
    show debtOf (createTransaction st t) cid = _
    cases hc : t.customerId == cid with
    | true =>
      have hcid : t.customerId = cid := by simpa using hc
      subst hcid
      rw [debtOf_createTransaction_self st t h]
      simp [opFor, evStep]
    | false =>
      rw [debtOf_createTransaction_other st t cid hc]
      simp [opFor, hc]
  | payment c0 a sh pid d =>
    show debtOf (recordPayment st c0 a sh pid d) cid = _
    cases hc : c0 == cid with
    | true =>
      have hcid : c0 = cid := by simpa using hc
      subst hcid
      rw [debtOf_recordPayment_self st c0 a sh pid d h]
      simp [opFor, evStep]
    | false =>
      rw [debtOf_recordPayment_other st c0 a sh pid d cid hc]
      simp [opFor, hc]
  | expense c0 desc a d sh eid =>
    show debtOf (recordExpense st c0 desc a d sh eid) cid = _
    cases hc : c0 == cid with
    | true =>
      have hcid : c0 = cid := by simpa using hc
      subst hcid
      rw [debtOf_recordExpense_self st c0 desc a d sh eid h]
      simp [opFor, evStep]
    | false =>
      rw [debtOf_recordExpense_other st c0 desc a d sh eid cid hc]
      simp [opFor, hc]

theorem debtOf_runOps (ops : List Op) (st : DbState) (cid : String)
    (h : existsCustomer st cid = true) :
    debtOf (runOps st ops) cid = debtFold (debtOf st cid) (eventsOf cid ops) := by
  induction ops generalizing st with
  | nil => rfl
  | cons op ops ih =>
    have h2 : existsCustomer (applyOp st op) cid = true := by
      rw [existsCustomer_applyOp]
      exact h
    have hstep : runOps st (op :: ops) = runOps (applyOp st op) ops := rfl
    rw [hstep, ih (applyOp st op) h2, debtOf_applyOp st op cid h]
    show debtFold _ _ = debtFold (debtOf st cid) (eventsOf cid (op :: ops))
    unfold eventsOf
    rw [List.filterMap_cons]
    cases hop : opFor cid op with
    | none => simp [debtFold]
    | some ev => simp [debtFold]

/-! ### The clamp-free replay equals the plain signed sum -/

theorem plainSum_cons (ev : CustEvent) (evs : List CustEvent) :
    plainSum (ev :: evs) = contrib ev + plainSum evs := by
  simp [plainSum]

theorem debtFold_of_noClamp (evs : List CustEvent) : ∀ d : Int,
    noClampFrom d evs = true → debtFold d evs = d + plainSum evs := by
  induction evs with
  | nil =>
    intro d _
    simp [debtFold, plainSum]
  | cons ev evs ih =>
    intro d h
    have hstep : debtFold d (ev :: evs) = debtFold (evStep d ev) evs := rfl
    cases ev with
    | sale b =>
      rw [show noClampFrom d (CustEvent.sale b :: evs) =
          (decide (0 ≤ b) && noClampFrom (evStep d (CustEvent.sale b)) evs) from rfl,
        Bool.and_eq_true] at h
      obtain ⟨hg, hrest⟩ := h
      rw [hstep, ih _ hrest, plainSum_cons]
      have hb : 0 ≤ b := by simpa using hg
      simp only [evStep, contrib]
      by_cases h0 : 0 < b
      · rw [if_pos h0]
        ring
      · have hb0 : b = 0 := le_antisymm (not_lt.mp h0) hb
        rw [if_neg h0, hb0]
        ring
    | payment a =>
      rw [show noClampFrom d (CustEvent.payment a :: evs) =
          (decide (a ≤ d) && noClampFrom (evStep d (CustEvent.payment a)) evs) from rfl,
        Bool.and_eq_true] at h
      obtain ⟨hg, hrest⟩ := h
      rw [hstep, ih _ hrest, plainSum_cons]
      have ha : a ≤ d := by simpa using hg
      simp only [evStep, contrib]
      have hnn : ¬ (d - a < 0) := by omega
      rw [if_neg hnn]
      ring
    | expense a =>
      rw [show noClampFrom d (CustEvent.expense a :: evs) =
          (true && noClampFrom (evStep d (CustEvent.expense a)) evs) from rfl,
        Bool.and_eq_true] at h
      obtain ⟨hg, hrest⟩ := h
      rw [hstep, ih _ hrest, plainSum_cons]
      simp only [evStep, contrib]
      ring

/-! ### Effect of each operation on the recorded per-customer sums -/

theorem saleSum_applyOp (st : DbState) (op : Op) (cid : String)
    (h : existsCustomer st cid = true) :
    saleSum (applyOp st op) cid =
      saleSum st cid + (match opFor cid op with
        | some (CustEvent.sale b) => b
        | _ => 0) := by
  cases op with
  | sale t =>
    have htx : (createTransaction st t).transactions = t :: st.transactions := rfl
    show saleSum (createTransaction st t) cid = _
    unfold saleSum
    rw [htx, List.filter_cons]
    cases hc : t.customerId == cid with
    | true =>
      simp [opFor, hc, add_comm]
    | false =>
      simp [opFor, hc]
  | payment c0 a sh pid d =>
    show saleSum (recordPayment st c0 a sh pid d) cid = _
    cases hf : st.customers.find? (fun x => x.id == c0) with
    | none =>
      rw [recordPayment_notFound st c0 a sh pid d hf]
      cases hcc : c0 == cid with
      | true =>
        have hc0 : c0 = cid := by simpa using hcc
        subst hc0
        simp [existsCustomer, hf] at h
      | false =>
        simp [opFor, hcc]
    | some c =>
      rw [recordPayment_found st c0 a sh pid d c hf]
      have htx : ({ st with
        customers := setFirst (fun x => x.id == c0)
          (fun x => { x with totalDebt :=
            if x.totalDebt - a < 0 then 0 else x.totalDebt - a }) st.customers,
        payments := st.payments ++
          [{ id := pid, shopId := sh.getD "unknown", customerId := c0,
             amount := a, date := d }] } : DbState).transactions = st.transactions := rfl
      unfold saleSum
      rw [htx]
      cases hc : c0 == cid <;> simp [opFor, hc]
  | expense c0 desc a d sh eid =>
    show saleSum (recordExpense st c0 desc a d sh eid) cid = _
    cases hf : st.customers.find? (fun x => x.id == c0) with
    | none =>
      rw [recordExpense_notFound st c0 desc a d sh eid hf]
      cases hcc : c0 == cid with
      | true =>
        have : c0 = cid := by simpa using hcc
        subst this
        simp [existsCustomer, hf] at h
      | false => simp [opFor, hcc]
    | some c =>
      rw [recordExpense_found st c0 desc a d sh eid c hf]
      have htx : ({ st with
        customers := setFirst (fun x => x.id == c0)
          (fun x => { x with totalDebt := x.totalDebt + a }) st.customers,
        expenses := st.expenses ++
          [{ id := eid, shopId := sh.getD "unknown", customerId := c0,
             description := desc, amount := a, date := d }] } : DbState).transactions = st.transactions := rfl
      unfold saleSum
      rw [htx]
      cases hc : c0 == cid <;> simp [opFor, hc]

theorem paySum_applyOp (st : DbState) (op : Op) (cid : String)
    (h : existsCustomer st cid = true) :
    paySum (applyOp st op) cid =
      paySum st cid + (match opFor cid op with
        | some (CustEvent.payment a) => a
        | _ => 0) := by
  cases op with
  | sale t =>
    have hp : (createTransaction st t).payments = st.payments := rfl
    show paySum (createTransaction st t) cid = _
    unfold paySum
    rw [hp]
    cases hc : t.customerId == cid <;> simp [opFor, hc]
  | payment c0 a sh pid d =>
    show paySum (recordPayment st c0 a sh pid d) cid = _
    cases hf : st.customers.find? (fun x => x.id == c0) with
    | none =>
      rw [recordPayment_notFound st c0 a sh pid d hf]
      cases hcc : c0 == cid with
      | true =>
        have hc0 : c0 = cid := by simpa using hcc
        subst hc0
        simp [existsCustomer, hf] at h
      | false =>
        simp [opFor, hcc]
    | some c =>
      rw [recordPayment_found st c0 a sh pid d c hf]
      unfold paySum
      simp only []
      rw [List.filter_append, List.map_append, List.sum_append]
      cases hcc : c0 == cid with
      | true => simp [opFor, hcc]
      | false => simp [opFor, hcc]
  | expense c0 desc a d sh eid =>
    show paySum (recordExpense st c0 desc a d sh eid) cid = _
    cases hf : st.customers.find? (fun x => x.id == c0) with
    | none =>
      rw [recordExpense_notFound st c0 desc a d sh eid hf]
      cases hcc : c0 == cid with
      | true =>
        have hc0 : c0 = cid := by simpa using hcc
        subst hc0
        simp [existsCustomer, hf] at h
      | false =>
        simp [opFor, hcc]
    | some c =>
      rw [recordExpense_found st c0 desc a d sh eid c hf]
      have hp : ({ st with
        customers := setFirst (fun x => x.id == c0)
          (fun x => { x with totalDebt := x.totalDebt + a }) st.customers,
        expenses := st.expenses ++
          [{ id := eid, shopId := sh.getD "unknown", customerId := c0,
             description := desc, amount := a, date := d }] } : DbState).payments = st.payments := rfl
      unfold paySum
      rw [hp]
      cases hcc : c0 == cid <;> simp [opFor, hcc]

theorem expSum_applyOp (st : DbState) (op : Op) (cid : String)
    (h : existsCustomer st cid = true) :
    expSum (applyOp st op) cid =
      expSum st cid + (match opFor cid op with
        | some (CustEvent.expense a) => a
        | _ => 0) := by
  cases op with
  | sale t =>
    have hp : (createTransaction st t).expenses = st.expenses := rfl
    show expSum (createTransaction st t) cid = _
    unfold expSum
    rw [hp]
    cases hc : t.customerId == cid <;> simp [opFor, hc]
  | payment c0 a sh pid d =>
    show expSum (recordPayment st c0 a sh pid d) cid = _
    cases hf : st.customers.find? (fun x => x.id == c0) with
    | none =>
      rw [recordPayment_notFound st c0 a sh pid d hf]
      cases hcc : c0 == cid with
      | true =>
        have hc0 : c0 = cid := by simpa using hcc
        subst hc0
        simp [existsCustomer, hf] at h
      | false =>
        simp [opFor, hcc]
    | some c =>
      rw [recordPayment_found st c0 a sh pid d c hf]
      have hp : ({ st with
        customers := setFirst (fun x => x.id == c0)
          (fun x => { x with totalDebt :=
            if x.totalDebt - a < 0 then 0 else x.totalDebt - a }) st.customers,
        payments := st.payments ++
          [{ id := pid, shopId := sh.getD "unknown", customerId := c0,
             amount := a, date := d }] } : DbState).expenses = st.expenses := rfl
      unfold expSum
      rw [hp]
      cases hcc : c0 == cid <;> simp [opFor, hcc]
  | expense c0 desc a d sh eid =>
    show expSum (recordExpense st c0 desc a d sh eid) cid = _
    cases hf : st.customers.find? (fun x => x.id == c0) with
    | none =>
      rw [recordExpense_notFound st c0 desc a d sh eid hf]
      cases hcc : c0 == cid with
      | true =>
        have hc0 : c0 = cid := by simpa using hcc
        subst hc0
        simp [existsCustomer, hf] at h
      | false =>
        simp [opFor, hcc]
    | some c =>
      rw [recordExpense_found st c0 desc a d sh eid c hf]
      unfold expSum
      simp only []
      rw [List.filter_append, List.map_append, List.sum_append]
      cases hcc : c0 == cid with
      | true => simp [opFor, hcc]
      | false => simp [opFor, hcc]

theorem ledgerSum_applyOp (st : DbState) (op : Op) (cid : String)
    (h : existsCustomer st cid = true) :
    ledgerSum (applyOp st op) cid =
      ledgerSum st cid + (match opFor cid op with
        | none => 0
        | some ev => contrib ev) := by
  unfold ledgerSum
  rw [saleSum_applyOp st op cid h, paySum_applyOp st op cid h, expSum_applyOp st op cid h]
  cases hop : opFor cid op with
  | none => simp
  | some ev => cases ev <;> simp [contrib] <;> ring

theorem ledgerSum_runOps (ops : List Op) (st : DbState) (cid : String)
    (h : existsCustomer st cid = true) :
    ledgerSum (runOps st ops) cid = ledgerSum st cid + plainSum (eventsOf cid ops) := by
  induction ops generalizing st with
  | nil => simp [runOps, eventsOf, plainSum]
  | cons op ops ih =>
    have h2 : existsCustomer (applyOp st op) cid = true := by
      rw [existsCustomer_applyOp]
      exact h
    have hstep : runOps st (op :: ops) = runOps (applyOp st op) ops := rfl
    rw [hstep, ih (applyOp st op) h2, ledgerSum_applyOp st op cid h]
    unfold eventsOf
    rw [List.filterMap_cons]
    cases hop : opFor cid op with
    | none => simp
    | some ev =>
      rw [plainSum_cons]
      ring

/-! ### From the statement computation to the recorded sums -/

theorem sum_map_neg_amount (l : List PaymentRecord) :
    (l.map (fun p => -p.amount)).sum = -((l.map (fun p => p.amount)).sum) := by
  induction l with
  | nil => simp
  | cons x xs ih =>
    simp [ih]
    ring

theorem changesSum_cons (i : StatementItem) (l : List StatementItem) :
    changesSum (i :: l) = i.balanceChange + changesSum l := by
  simp [changesSum]

theorem getLast?_withRunning (l : List StatementItem) : ∀ b : Int, l ≠ [] →
    (withRunning b l).getLast?.map (fun i => i.runningBalance) =
      some (b + changesSum l) := by
  induction l with
  | nil =>
    intro b hne
    exact absurd rfl hne
  | cons x xs ih =>
    intro b _
    cases xs with
    | nil =>
      simp [withRunning, changesSum]
    | cons y ys =>
      have h1 : withRunning b (x :: y :: ys) =
          { x with runningBalance := b + x.balanceChange }
            :: withRunning (b + x.balanceChange) (y :: ys) := rfl
      have h3 : withRunning (b + x.balanceChange) (y :: ys) =
          { y with runningBalance := b + x.balanceChange + y.balanceChange }
            :: withRunning (b + x.balanceChange + y.balanceChange) ys := rfl
      rw [h1, h3, List.getLast?_cons_cons, ← h3, ih (b + x.balanceChange) (by simp)]
      simp only [changesSum_cons]
      congr 1
      ring

theorem lastRunning_withRunning_zero (l : List StatementItem) :
    lastRunning (withRunning 0 l) = changesSum l := by
  cases l with
  | nil => simp [withRunning, lastRunning, changesSum]
  | cons x xs =>
    have h := getLast?_withRunning (x :: xs) 0 (by simp)
    unfold lastRunning
    cases hg : (withRunning 0 (x :: xs)).getLast? with
    | none =>
      rw [hg] at h
      simp at h
    | some i =>
      rw [hg] at h
      simp at h
      show i.runningBalance = changesSum (x :: xs)
      exact h

theorem changesSum_sortStatement (l : List StatementItem) :
    changesSum (sortStatement l) = changesSum l := by
  unfold changesSum sortStatement
  exact List.Perm.sum_eq (List.Perm.map _ (List.perm_insertionSort _ l))

theorem changesSum_mergedItems (st : DbState) (cid : String) :
    changesSum (mergedItems st cid) = ledgerSum st cid := by
  unfold changesSum mergedItems ledgerSum saleSum paySum expSum
  rw [List.map_append, List.map_append, List.sum_append, List.sum_append,
    List.map_map, List.map_map, List.map_map]
  have h1 : ((fun i => i.balanceChange) ∘ saleToItem) = fun (t : Transaction) => t.balance := rfl
  have h2 : ((fun i => i.balanceChange) ∘ paymentToItem) =
      fun (p : PaymentRecord) => -(p.amount) := rfl
  have h3 : ((fun i => i.balanceChange) ∘ expenseToItem) =
      fun (e : ExpenseRecord) => e.amount := rfl
  rw [h1, h2, h3, sum_map_neg_amount]
  ring

theorem lastRunning_computeStatement (st : DbState) (cid : String) :
    lastRunning (computeStatement st cid) = ledgerSum st cid := by
  unfold computeStatement
  rw [lastRunning_withRunning_zero, changesSum_sortStatement, changesSum_mergedItems]

/-! ### Sortedness, stability, permutation, prefix sums, summary -/

theorem map_date_withRunning (l : List StatementItem) : ∀ b : Int,
    (withRunning b l).map (fun i => i.date) = l.map (fun i => i.date) := by
  induction l with
  | nil => intro b; rfl
  | cons x xs ih =>
    intro b
    simp [withRunning, ih]

theorem sorted_dates_computeStatement (st : DbState) (cid : String) :
    ((computeStatement st cid).map (fun i => i.date)).Sorted (· ≤ ·) := by
  unfold computeStatement
  rw [map_date_withRunning]
  unfold sortStatement
  have hs := List.sorted_insertionSort (fun (a b : StatementItem) => a.date ≤ b.date)
    (mergedItems st cid)
  unfold List.Sorted at hs ⊢
  rw [List.pairwise_map]
  exact hs

theorem filter_date_orderedInsert (d : Int) (x : StatementItem)
    (l : List StatementItem) :
    (List.orderedInsert (fun a b => a.date ≤ b.date) x l).filter (fun i => i.date == d) =
      (if x.date == d then x :: l.filter (fun i => i.date == d)
       else l.filter (fun i => i.date == d)) := by
  induction l with
  | nil =>
    show ([x].filter (fun i => i.date == d)) = _
    rw [List.filter_cons]
  | cons y ys ih =>
    by_cases hle : x.date ≤ y.date
    · have hoi : List.orderedInsert (fun a b => a.date ≤ b.date) x (y :: ys) =
          x :: y :: ys := by
        simp [List.orderedInsert, hle]
      rw [hoi, List.filter_cons, List.filter_cons]
    · have hoi : List.orderedInsert (fun a b => a.date ≤ b.date) x (y :: ys) =
          y :: List.orderedInsert (fun a b => a.date ≤ b.date) x ys := by
        simp [List.orderedInsert, hle]
      rw [hoi, List.filter_cons, ih]
      have hylt : y.date < x.date := lt_of_not_le hle
      cases hxd : x.date == d with
      | true =>
        have hxe : x.date = d := by simpa using hxd
        have hyd : (y.date == d) = false := by
          have : y.date ≠ d := by omega
          simpa using this
        rw [List.filter_cons]
        simp [hyd]
      | false =>
        rw [List.filter_cons]
        cases hyd : y.date == d <;> simp [hyd]

theorem filter_date_sortStatement (d : Int) (l : List StatementItem) :
    (sortStatement l).filter (fun i => i.date == d) =
      l.filter (fun i => i.date == d) := by
  unfold sortStatement
  induction l with
  | nil => rfl
  | cons x xs ih =>
    have hstep : List.insertionSort (fun (a b : StatementItem) => a.date ≤ b.date) (x :: xs) =
        List.orderedInsert (fun a b => a.date ≤ b.date) x
          (List.insertionSort (fun a b => a.date ≤ b.date) xs) := rfl
    rw [hstep, filter_date_orderedInsert, List.filter_cons]
    cases hxd : x.date == d <;> simp [hxd, ih]

theorem map_dropRunning_withRunning (l : List StatementItem) : ∀ b : Int,
    (withRunning b l).map dropRunning = l.map dropRunning := by
  induction l with
  | nil => intro b; rfl
  | cons x xs ih =>
    intro b
    simp [withRunning, ih, dropRunning]

theorem map_dropRunning_mergedItems (st : DbState) (cid : String) :
    (mergedItems st cid).map dropRunning = mergedItems st cid := by
  unfold mergedItems
  rw [List.map_append, List.map_append, List.map_map, List.map_map, List.map_map]
  have h1 : dropRunning ∘ saleToItem = saleToItem := funext fun t => rfl
  have h2 : dropRunning ∘ paymentToItem = paymentToItem := funext fun p => rfl
  have h3 : dropRunning ∘ expenseToItem = expenseToItem := funext fun e => rfl
  rw [h1, h2, h3]

theorem perm_dropRunning_computeStatement (st : DbState) (cid : String) :
    List.Perm ((computeStatement st cid).map dropRunning) (mergedItems st cid) := by
  unfold computeStatement
  rw [map_dropRunning_withRunning]
  have hp : List.Perm (sortStatement (mergedItems st cid)) (mergedItems st cid) :=
    List.perm_insertionSort _ _
  have hp2 := hp.map dropRunning
  rw [map_dropRunning_mergedItems] at hp2
  exact hp2

theorem map_running_withRunning (l : List StatementItem) : ∀ b : Int,
    (withRunning b l).map (fun i => i.runningBalance) =
      prefixSumsFrom b (l.map (fun i => i.balanceChange)) := by
  induction l with
  | nil => intro b; rfl
  | cons x xs ih =>
    intro b
    simp [withRunning, prefixSumsFrom, ih]

theorem running_computeStatement (st : DbState) (cid : String) :
    (computeStatement st cid).map (fun i => i.runningBalance) =
      prefixSums ((sortStatement (mergedItems st cid)).map (fun i => i.balanceChange)) := by
  unfold computeStatement prefixSums
  rw [map_running_withRunning]

theorem billedOf_cons (i : StatementItem) (l : List StatementItem) :
    billedOf (i :: l) =
      (match i.type with
       | .PAYMENT => 0
       | .SALE => i.amount
       | .EXPENSE => i.amount) + billedOf l := by
  simp [billedOf]

theorem paidOf_cons (i : StatementItem) (l : List StatementItem) :
    paidOf (i :: l) =
      (match i.type with
       | .PAYMENT => i.amount
       | .SALE => 0
       | .EXPENSE => 0) + paidOf l := by
  simp [paidOf]

theorem summary_foldl (l : List StatementItem) : ∀ acc : Int × Int,
    l.foldl (fun acc i =>
      match i.type with
      | .SALE => (acc.1 + i.amount, acc.2)
      | .EXPENSE => (acc.1 + i.amount, acc.2)
      | .PAYMENT => (acc.1, acc.2 + i.amount)) acc
    = (acc.1 + billedOf l, acc.2 + paidOf l) := by
  induction l with
  | nil =>
    intro acc
    simp [billedOf, paidOf]
  | cons i is ih =>
    intro acc
    rw [List.foldl_cons, ih, billedOf_cons, paidOf_cons]
    cases hty : i.type <;> simp [hty, add_assoc, add_comm, add_left_comm]

theorem sum_map_zero {α : Type} (l : List α) :
    (l.map (fun _ => (0 : Int))).sum = 0 := by
  induction l with
  | nil => rfl
  | cons x xs ih => simp [ih]

theorem billedOf_mergedItems (st : DbState) (cid : String) :
    billedOf (mergedItems st cid) =
      ((st.transactions.filter (fun t => t.customerId == cid)).map (fun t => t.totalAmount)).sum
      + ((st.expenses.filter (fun e => e.customerId == cid)).map (fun e => e.amount)).sum := by
  unfold billedOf mergedItems
  rw [List.map_append, List.map_append, List.sum_append, List.sum_append,
    List.map_map, List.map_map, List.map_map]
  have h1 : ((fun (i : StatementItem) =>
      match i.type with
      | .PAYMENT => 0
      | .SALE => i.amount
      | .EXPENSE => i.amount) ∘ saleToItem) = fun (t : Transaction) => t.totalAmount :=
    funext fun t => rfl
  have h2 : ((fun (i : StatementItem) =>
      match i.type with
      | .PAYMENT => 0
      | .SALE => i.amount
      | .EXPENSE => i.amount) ∘ paymentToItem) = fun (_ : PaymentRecord) => (0 : Int) :=
    funext fun p => rfl
  have h3 : ((fun (i : StatementItem) =>
      match i.type with
      | .PAYMENT => 0
      | .SALE => i.amount
      | .EXPENSE => i.amount) ∘ expenseToItem) = fun (e : ExpenseRecord) => e.amount :=
    funext fun e => rfl
  rw [h1, h2, h3, sum_map_zero]
  ring

theorem paidOf_mergedItems (st : DbState) (cid : String) :
    paidOf (mergedItems st cid) =
      ((st.payments.filter (fun p => p.customerId == cid)).map (fun p => p.amount)).sum := by
  unfold paidOf mergedItems
  rw [List.map_append, List.map_append, List.sum_append, List.sum_append,
    List.map_map, List.map_map, List.map_map]
  have h1 : ((fun (i : StatementItem) =>
      match i.type with
      | .PAYMENT => i.amount
      | .SALE => 0
      | .EXPENSE => 0) ∘ saleToItem) = fun (_ : Transaction) => (0 : Int) :=
    funext fun t => rfl
  have h2 : ((fun (i : StatementItem) =>
      match i.type with
      | .PAYMENT => i.amount
      | .SALE => 0
      | .EXPENSE => 0) ∘ paymentToItem) = fun (p : PaymentRecord) => p.amount :=
    funext fun p => rfl
  have h3 : ((fun (i : StatementItem) =>
      match i.type with
      | .PAYMENT => i.amount
      | .SALE => 0
      | .EXPENSE => 0) ∘ expenseToItem) = fun (_ : ExpenseRecord) => (0 : Int) :=
    funext fun e => rfl
  rw [h1, h2, h3, sum_map_zero, sum_map_zero]
  ring

theorem billedOf_sortStatement (l : List StatementItem) :
    billedOf (sortStatement l) = billedOf l := by
  unfold billedOf sortStatement
  exact List.Perm.sum_eq (List.Perm.map _ (List.perm_insertionSort _ l))

theorem paidOf_sortStatement (l : List StatementItem) :
    paidOf (sortStatement l) = paidOf l := by
  unfold paidOf sortStatement
  exact List.Perm.sum_eq (List.Perm.map _ (List.perm_insertionSort _ l))

theorem statementSummary_eq (st : DbState) (cid : String) :
    statementSummary st cid =
      (((st.transactions.filter (fun t => t.customerId == cid)).map (fun t => t.totalAmount)).sum
        + ((st.expenses.filter (fun e => e.customerId == cid)).map (fun e => e.amount)).sum,
       ((st.payments.filter (fun p => p.customerId == cid)).map (fun p => p.amount)).sum) := by
  unfold statementSummary
  rw [summary_foldl, billedOf_sortStatement, paidOf_sortStatement,
    billedOf_mergedItems, paidOf_mergedItems]
  simp

/-! ### Stock sums and the transfer operation -/

theorem sumStockBy_cons (pred : Product → Bool) (p : Product) (l : List Product) :
    sumStockBy pred (p :: l) = (if pred p then p.stock else 0) + sumStockBy pred l := by
  simp [sumStockBy]

theorem sumStockBy_append (pred : Product → Bool) (l1 l2 : List Product) :
    sumStockBy pred (l1 ++ l2) = sumStockBy pred l1 + sumStockBy pred l2 := by
  simp [sumStockBy]

theorem sumStockBy_setFirst (pred qp : Product → Bool) (f : Product → Product)
    (l : List Product) :
    sumStockBy pred (setFirst qp f l) =
      sumStockBy pred l +
        (match l.find? qp with
         | some a => (if pred (f a) then (f a).stock else 0) - (if pred a then a.stock else 0)
         | none => 0) := by
  induction l with
  | nil => simp [setFirst, sumStockBy]
  | cons x xs ih =>
    cases hx : qp x with
    | true =>
      have hs : setFirst qp f (x :: xs) = f x :: xs := by simp [setFirst, hx]
      rw [hs, List.find?_cons_of_pos _ hx, sumStockBy_cons, sumStockBy_cons]
      ring
    | false =>
      have hs : setFirst qp f (x :: xs) = x :: setFirst qp f xs := by simp [setFirst, hx]
      have hfc : (x :: xs).find? qp = xs.find? qp := by simp [List.find?_cons, hx]
      rw [hs, sumStockBy_cons, sumStockBy_cons, ih, hfc]
      ring

theorem transferProduct_found (products : List Product) (name A B : String)
    (q : Int) (newId : String) (src : Product)
    (hsrc : products.find? (fun p => p.shopId == A && p.name == name) = some src)
    (hok : ¬ (src.stock < q)) :
    transferProduct products name A B q newId =
      (match (setFirst (fun p => p.shopId == A && p.name == name)
          (fun p => { p with stock := p.stock - q }) products).find?
          (fun p => p.shopId == B && p.name == name) with
      | some _ => .ok (setFirst (fun p => p.shopId == B && p.name == name)
          (fun p => { p with stock := p.stock + q })
          (setFirst (fun p => p.shopId == A && p.name == name)
            (fun p => { p with stock := p.stock - q }) products))
      | none => .ok ((setFirst (fun p => p.shopId == A && p.name == name)
          (fun p => { p with stock := p.stock - q }) products) ++
          [{ src with id := newId, shopId := B, stock := q }])) := by
  unfold transferProduct
  rw [hsrc]
  simp [hok]

/-! ### Claim theorems -/

/-- C5: whenever a product with the given name exists in the source shop but
the requested quantity exceeds its stock, `transferProduct` fails with the
insufficient-stock error; in this functional embedding the error result
carries no modified product list, mirroring the TS code, which throws before
mutating anything, so no stock changes. -/
theorem C5_insufficient_stock_rejected (products : List Product)
    (name A B : String) (q : Int) (newId : String) (src : Product)
    (hsrc : products.find? (fun p => p.shopId == A && p.name == name) = some src)
    (hlt : src.stock < q) :
    transferProduct products name A B q newId =
      Except.error TransferError.insufficientStock := by
  unfold transferProduct
  rw [hsrc]
  simp [hlt]

/-- Witness for C5: transferring 200 shirts out of a stock of 150 fails. -/
theorem C5_witness :
    [prodShirt].find? (fun p => p.shopId == "shop1" && p.name == "Premium Cotton Shirt")
        = some prodShirt
    ∧ prodShirt.stock < 200
    ∧ transferProduct [prodShirt] "Premium Cotton Shirt" "shop1" "shop2" 200 "PROD-X"
        = Except.error TransferError.insufficientStock :=
  ⟨by decide, by decide,
    C5_insufficient_stock_rejected [prodShirt] "Premium Cotton Shirt" "shop1" "shop2"
      200 "PROD-X" prodShirt (by decide) (by decide)⟩

/-- C6 counterexample: at the concrete state `baseState`, whose only customer
id is "c1", `recordPayment` and `recordExpense` addressed to the unknown id
"zz" return the state entirely unchanged — no payment or expense record is
appended, no debt changes, and no error of any kind is produced (the TS
methods have no throw path at all).  This contradicts the claim that these
calls fail with a typed `CustomerNotFound` error. -/
theorem C6_counterexample :
    recordPayment baseState "zz" 100 none "p9" 50 = baseState
    ∧ recordExpense baseState "zz" "Delivery" 50 60 none "e9" = baseState := by
  constructor <;> rfl

/-- C6 amended: for a customerId that references no existing customer,
`recordPayment` and `recordExpense` are silent no-ops: they return the state
unchanged (no debt change, no record appended) instead of failing with
`CustomerNotFound`. -/
theorem C6_missing_customer_silent_noop (st : DbState) (cid : String)
    (amount : Int) (sh : Option String) (pid : String) (d : Int)
    (desc : String) (ea ed : Int) (eid : String)
    (h : st.customers.find? (fun c => c.id == cid) = none) :
    recordPayment st cid amount sh pid d = st
    ∧ recordExpense st cid desc ea ed sh eid = st :=
  ⟨recordPayment_notFound st cid amount sh pid d h,
   recordExpense_notFound st cid desc ea ed sh eid h⟩

/-- Witness for C6: the amended no-op behaviour at the concrete state. -/
theorem C6_witness :
    baseState.customers.find? (fun c => c.id == "zz") = none
    ∧ (recordPayment baseState "zz" 100 none "p9" 50 = baseState
       ∧ recordExpense baseState "zz" "Delivery" 50 60 none "e9" = baseState) :=
  ⟨by decide,
   C6_missing_customer_silent_noop baseState "zz" 100 none "p9" 50 "Delivery" 50 60 "e9"
     (by decide)⟩

/-- C8: the status of the sale assembled by `handleCheckout` is a pure
function of `(totalAmount, paidAmount)` with `balance = total - paid`:
PAID iff the balance is ≤ 0, UNPAID iff nothing was paid and the balance is
positive, PARTIAL otherwise; in particular total 1000 / paid 1000 gives PAID,
total 1000 / paid 0 gives UNPAID, and total 1000 / paid 400 gives PARTIAL
with balance 600. -/
theorem C8_status_derivation (id shopId customerId customerName : String)
    (date : Int) (items : List SaleItem) (total paid : Int) :
    (handleCheckoutTransaction id shopId customerId customerName date items total paid).balance
        = total - paid
    ∧ ((handleCheckoutTransaction id shopId customerId customerName date items total paid).status
        = SaleStatus.PAID ↔ total - paid ≤ 0)
    ∧ ((handleCheckoutTransaction id shopId customerId customerName date items total paid).status
        = SaleStatus.UNPAID ↔ (paid = 0 ∧ 0 < total - paid))
    ∧ ((handleCheckoutTransaction id shopId customerId customerName date items total paid).status
        = SaleStatus.PARTIAL ↔ (¬ paid = 0 ∧ 0 < total - paid))
    ∧ (handleCheckoutTransaction id shopId customerId customerName date items 1000 1000).status
        = SaleStatus.PAID
    ∧ (handleCheckoutTransaction id shopId customerId customerName date items 1000 0).status
        = SaleStatus.UNPAID
    ∧ (handleCheckoutTransaction id shopId customerId customerName date items 1000 400).status
        = SaleStatus.PARTIAL
    ∧ (handleCheckoutTransaction id shopId customerId customerName date items 1000 400).balance
        = 600 := by
  refine ⟨rfl, ?_, ?_, ?_, by norm_num [handleCheckoutTransaction],
    by norm_num [handleCheckoutTransaction], by norm_num [handleCheckoutTransaction], rfl⟩
  · simp only [handleCheckoutTransaction]
    split_ifs with h1 h2 <;> simp_all
  · simp only [handleCheckoutTransaction]
    split_ifs with h1 h2 <;> simp_all
    omega
  · simp only [handleCheckoutTransaction]
    split_ifs with h1 h2 <;> simp_all

/-- C9: for an existing customer, `recordPayment` sets the cached debt to
`max 0 (totalDebt - amount)` — an overpayment is silently discarded — and
this floor at zero is applied only by `recordPayment`: `recordExpense` adds
its amount without clamping, and `createTransaction` adds the balance only
when it is positive, never clamping the result. -/
theorem C9_payment_floor (st : DbState) (cid : String) (c : Customer)
    (amount : Int) (sh : Option String) (pid : String) (d : Int)
    (desc : String) (ea ed : Int) (eid : String) (t : Transaction)
    (hc : st.customers.find? (fun x => x.id == cid) = some c)
    (ht : t.customerId = cid) :
    debtOf (recordPayment st cid amount sh pid d) cid = max 0 (c.totalDebt - amount)
    ∧ debtOf (recordExpense st cid desc ea ed sh eid) cid = c.totalDebt + ea
    ∧ debtOf (createTransaction st t) cid =
        c.totalDebt + (if 0 < t.balance then t.balance else 0) := by
  have hex : existsCustomer st cid = true := by simp [existsCustomer, hc]
  have hd : debtOf st cid = c.totalDebt := by simp [debtOf, hc]
  refine ⟨?_, ?_, ?_⟩
  · rw [debtOf_recordPayment_self st cid amount sh pid d hex, hd]
    rcases lt_or_le (c.totalDebt - amount) 0 with h | h
    · rw [if_pos h]
      exact (max_eq_left h.le).symm
    · rw [if_neg (not_lt.mpr h)]
      exact (max_eq_right h).symm
  · rw [debtOf_recordExpense_self st cid desc ea ed sh eid hex, hd]
  · subst ht
    rw [debtOf_createTransaction_self st t hex, hd]
    split_ifs with h
    · rfl
    · ring

/-- Witness for C9: debt 0, payment 10 clamps to 0; a negative expense is
added without flooring; an overpaid sale adds nothing. -/
theorem C9_witness :
    baseState.customers.find? (fun x => x.id == "c1") = some custC1
    ∧ saleOverpaid.customerId = "c1"
    ∧ (debtOf (recordPayment baseState "c1" 10 none "p1" 5) "c1"
          = max 0 (custC1.totalDebt - 10)
       ∧ debtOf (recordExpense baseState "c1" "Delivery" (-7) 6 none "e1") "c1"
          = custC1.totalDebt + (-7)
       ∧ debtOf (createTransaction baseState saleOverpaid) "c1"
          = custC1.totalDebt + (if 0 < saleOverpaid.balance then saleOverpaid.balance else 0)) :=
  ⟨by decide, by decide,
   C9_payment_floor baseState "c1" custC1 10 none "p1" 5 "Delivery" (-7) 6 "e1"
     saleOverpaid (by decide) (by decide)⟩

/-- C10: a sale whose balance is ≤ 0 (fully paid or overpaid) leaves the
whole customer list — hence every customer's `totalDebt` — unchanged, while
the statement computation still includes the sale's (possibly negative)
balance as its `balanceChange` contribution, prepended to the customer's
merged event rows. -/
theorem C10_nonpositive_balance_frame (st : DbState) (t : Transaction)
    (hb : t.balance ≤ 0) :
    (createTransaction st t).customers = st.customers
    ∧ (saleToItem t).balanceChange = t.balance
    ∧ mergedItems (createTransaction st t) t.customerId =
        saleToItem t :: mergedItems st t.customerId := by
  refine ⟨customers_createTransaction_nopos st t (not_lt.mpr hb), rfl, ?_⟩
  unfold mergedItems
  have htx : (createTransaction st t).transactions = t :: st.transactions := rfl
  have hpay : (createTransaction st t).payments = st.payments := rfl
  have hexp : (createTransaction st t).expenses = st.expenses := rfl
  rw [htx, hpay, hexp, List.filter_cons]
  simp

/-- Witness for C10: the overpaid sale fixture (balance -5) leaves customers
unchanged and contributes -5 to the statement. -/
theorem C10_witness :
    saleOverpaid.balance ≤ 0
    ∧ ((createTransaction baseState saleOverpaid).customers = baseState.customers
       ∧ (saleToItem saleOverpaid).balanceChange = saleOverpaid.balance
       ∧ mergedItems (createTransaction baseState saleOverpaid) saleOverpaid.customerId =
           saleToItem saleOverpaid :: mergedItems baseState saleOverpaid.customerId) :=
  ⟨by decide, C10_nonpositive_balance_frame baseState saleOverpaid (by decide)⟩

/-- C4: a successful transfer with sufficient source stock decreases the
source product's stock by exactly `q`; an existing destination product with
the same name gains exactly `q`, and otherwise a new product is created in
the destination shop cloning name/category/prices/description from the
source with the fresh id and stock `q`; the total stock for that product
name across the two shops is conserved. -/
theorem C4_transfer_conservation (products : List Product) (name A B : String)
    (q : Int) (newId : String) (src : Product)
    (hsrc : products.find? (fun p => p.shopId == A && p.name == name) = some src)
    (hq : q ≤ src.stock) (hAB : A ≠ B) :
    ∃ ps, transferProduct products name A B q newId = Except.ok ps
      ∧ ps.find? (fun p => p.shopId == A && p.name == name)
          = some { src with stock := src.stock - q }
      ∧ (match products.find? (fun p => p.shopId == B && p.name == name) with
         | some d => ps.find? (fun p => p.shopId == B && p.name == name)
             = some { d with stock := d.stock + q }
         | none => ps.find? (fun p => p.shopId == B && p.name == name)
             = some { src with id := newId, shopId := B, stock := q })
      ∧ sumStockBy (fun p => p.name == name && (p.shopId == A || p.shopId == B)) ps
          = sumStockBy (fun p => p.name == name && (p.shopId == A || p.shopId == B))
              products := by
  have hok : ¬ (src.stock < q) := not_lt.mpr hq
  have hsrc2 : src.shopId = A ∧ src.name = name := by
    simpa using List.find?_some hsrc
  have hqrSD : ∀ p : Product, ((p.shopId == A && p.name == name) = true) →
      ((p.shopId == B && p.name == name) = false) := by
    intro p hp
    have hp2 : p.shopId = A ∧ p.name = name := by simpa using hp
    have hne : p.shopId ≠ B := by rw [hp2.1]; exact hAB
    simp [hne]
  have hqrDS : ∀ p : Product, ((p.shopId == B && p.name == name) = true) →
      ((p.shopId == A && p.name == name) = false) := by
    intro p hp
    have hp2 : p.shopId = B ∧ p.name = name := by simpa using hp
    have hne : p.shopId ≠ A := by
      rw [hp2.1]
      exact fun hEq => hAB hEq.symm
    simp [hne]
  have hADfind : (setFirst (fun p => p.shopId == A && p.name == name)
      (fun p => { p with stock := p.stock - q }) products).find?
      (fun p => p.shopId == A && p.name == name)
      = some { src with stock := src.stock - q } := by
    rw [find?_setFirst_same (fun (p : Product) => p.shopId == A && p.name == name)
      (fun (p : Product) => { p with stock := p.stock - q }) (fun p => rfl) products, hsrc]
    rfl
  have hBDfind : (setFirst (fun p => p.shopId == A && p.name == name)
      (fun p => { p with stock := p.stock - q }) products).find?
      (fun p => p.shopId == B && p.name == name)
      = products.find? (fun p => p.shopId == B && p.name == name) :=
    find?_setFirst_other (fun (p : Product) => p.shopId == A && p.name == name)
      (fun (p : Product) => p.shopId == B && p.name == name)
      (fun (p : Product) => { p with stock := p.stock - q }) hqrSD (fun p => rfl) products
  have hpredsrc : ((fun (p : Product) => p.name == name && (p.shopId == A || p.shopId == B)) src)
      = true := by
    simp [hsrc2.1, hsrc2.2]
  have hdeduct : sumStockBy (fun p => p.name == name && (p.shopId == A || p.shopId == B))
      (setFirst (fun p => p.shopId == A && p.name == name)
        (fun p => { p with stock := p.stock - q }) products)
      = sumStockBy (fun p => p.name == name && (p.shopId == A || p.shopId == B)) products
        - q := by
    rw [sumStockBy_setFirst (fun p => p.name == name && (p.shopId == A || p.shopId == B))
      (fun p => p.shopId == A && p.name == name)
      (fun p => { p with stock := p.stock - q }) products, hsrc]
    have hpredf : ((fun (p : Product) => p.name == name && (p.shopId == A || p.shopId == B))
        { src with stock := src.stock - q }) = true := hpredsrc
    rw [show (match some src with
      | some a => (if ((fun (p : Product) => p.name == name && (p.shopId == A || p.shopId == B)) ({ a with stock := a.stock - q } : Product)) = true then ({ a with stock := a.stock - q } : Product).stock else 0)
          - (if ((fun (p : Product) => p.name == name && (p.shopId == A || p.shopId == B)) a) = true then a.stock else 0)
      | none => 0) =
      ((if ((fun (p : Product) => p.name == name && (p.shopId == A || p.shopId == B)) ({ src with stock := src.stock - q } : Product)) = true then ({ src with stock := src.stock - q } : Product).stock else 0)
          - (if ((fun (p : Product) => p.name == name && (p.shopId == A || p.shopId == B)) src) = true then src.stock else 0)) from rfl]
    rw [if_pos hpredf, if_pos hpredsrc]
    ring
  rw [transferProduct_found products name A B q newId src hsrc hok]
  cases hdest : products.find? (fun p => p.shopId == B && p.name == name) with
  | none =>
    rw [hBDfind, hdest]
    refine ⟨_, rfl, ?_, ?_, ?_⟩
    · rw [List.find?_append, hADfind]
      rfl
    · rw [List.find?_append, hBDfind, hdest]
      simp [List.find?_cons, hsrc2.2]
    · rw [sumStockBy_append, hdeduct, sumStockBy_cons]
      have hnp : ((fun (p : Product) => p.name == name && (p.shopId == A || p.shopId == B))
          ({ src with id := newId, shopId := B, stock := q } : Product)) = true := by
        simp [hsrc2.2]
      rw [if_pos hnp]
      show sumStockBy _ products - q + (q + sumStockBy _ []) = sumStockBy _ products
      rw [show sumStockBy (fun p => p.name == name && (p.shopId == A || p.shopId == B)) [] = 0 from rfl]
      ring
  | some d =>
    have hd2 : d.shopId = B ∧ d.name = name := by
      simpa using List.find?_some hdest
    have hpredd : ((fun (p : Product) => p.name == name && (p.shopId == A || p.shopId == B)) d)
        = true := by
      simp [hd2.1, hd2.2]
    rw [hBDfind, hdest]
    refine ⟨_, rfl, ?_, ?_, ?_⟩
    · rw [find?_setFirst_other (fun (p : Product) => p.shopId == B && p.name == name)
        (fun (p : Product) => p.shopId == A && p.name == name)
        (fun (p : Product) => { p with stock := p.stock + q }) hqrDS (fun p => rfl), hADfind]
    · rw [find?_setFirst_same (fun (p : Product) => p.shopId == B && p.name == name)
        (fun (p : Product) => { p with stock := p.stock + q }) (fun p => rfl), hBDfind, hdest]
      rfl
    · rw [sumStockBy_setFirst (fun p => p.name == name && (p.shopId == A || p.shopId == B))
        (fun p => p.shopId == B && p.name == name)
        (fun p => { p with stock := p.stock + q }), hBDfind, hdest, hdeduct]
      have hpreddf : ((fun (p : Product) => p.name == name && (p.shopId == A || p.shopId == B))
          ({ d with stock := d.stock + q } : Product)) = true := hpredd
      rw [show (match some d with
        | some a => (if ((fun (p : Product) => p.name == name && (p.shopId == A || p.shopId == B)) ({ a with stock := a.stock + q } : Product)) = true then ({ a with stock := a.stock + q } : Product).stock else 0)
            - (if ((fun (p : Product) => p.name == name && (p.shopId == A || p.shopId == B)) a) = true then a.stock else 0)
        | none => 0) =
        ((if ((fun (p : Product) => p.name == name && (p.shopId == A || p.shopId == B)) ({ d with stock := d.stock + q } : Product)) = true then ({ d with stock := d.stock + q } : Product).stock else 0)
            - (if ((fun (p : Product) => p.name == name && (p.shopId == A || p.shopId == B)) d) = true then d.stock else 0)) from rfl]
      rw [if_pos hpreddf, if_pos hpredd]
      ring

/-- Witness for C4: moving 30 shirts from shop1 (stock 150) to shop2
(existing record, stock 20). -/
theorem C4_witness :
    [prodShirt, prodShirt2].find?
        (fun p => p.shopId == "shop1" && p.name == "Premium Cotton Shirt") = some prodShirt
    ∧ (30 : Int) ≤ prodShirt.stock
    ∧ "shop1" ≠ "shop2"
    ∧ (∃ ps, transferProduct [prodShirt, prodShirt2] "Premium Cotton Shirt" "shop1" "shop2"
          30 "PROD-X" = Except.ok ps
        ∧ ps.find? (fun p => p.shopId == "shop1" && p.name == "Premium Cotton Shirt")
            = some { prodShirt with stock := prodShirt.stock - 30 }
        ∧ (match [prodShirt, prodShirt2].find?
              (fun p => p.shopId == "shop2" && p.name == "Premium Cotton Shirt") with
           | some d => ps.find? (fun p => p.shopId == "shop2" && p.name == "Premium Cotton Shirt")
               = some { d with stock := d.stock + 30 }
           | none => ps.find? (fun p => p.shopId == "shop2" && p.name == "Premium Cotton Shirt")
               = some { prodShirt with id := "PROD-X", shopId := "shop2", stock := 30 })
        ∧ sumStockBy (fun p => p.name == "Premium Cotton Shirt"
              && (p.shopId == "shop1" || p.shopId == "shop2")) ps
            = sumStockBy (fun p => p.name == "Premium Cotton Shirt"
              && (p.shopId == "shop1" || p.shopId == "shop2")) [prodShirt, prodShirt2]) :=
  ⟨by decide, by decide, by decide,
   C4_transfer_conservation [prodShirt, prodShirt2] "Premium Cotton Shirt" "shop1" "shop2"
     30 "PROD-X" prodShirt (by decide) (by decide) (by decide)⟩

/-- C7 counterexample: at `baseState` (whose only product id is "1" and whose
customer "c1" exists with debt 0), a sale whose only line item references the
nonexistent product id "p9" does NOT fail: `createTransaction` records the
transaction, leaves the product list unchanged (the missing item is silently
skipped), and still adds the balance 100 to the customer's debt — the claim
that the call fails with `ProductNotFound` and applies no sub-step is false. -/
theorem C7_counterexample :
    baseState.products.find? (fun p => p.id == "p9") = none
    ∧ (createTransaction baseState saleMissingProduct).transactions
        = saleMissingProduct :: baseState.transactions
    ∧ (createTransaction baseState saleMissingProduct).products = baseState.products
    ∧ debtOf (createTransaction baseState saleMissingProduct) "c1" = 100 :=
  ⟨by decide, rfl, by decide, by decide⟩

/-- C7 amended: `createTransaction` never fails.  The transaction is always
recorded; line items whose product id matches no product are silently skipped
for the stock decrement (with all items missing, products are unchanged); and
the customer's debt is still increased by the balance when it is positive. -/
theorem C7_missing_product_skipped (st : DbState) (t : Transaction)
    (h : ∀ item ∈ t.items, st.products.find? (fun p => p.id == item.productId) = none)
    (hex : existsCustomer st t.customerId = true) :
    (createTransaction st t).transactions = t :: st.transactions
    ∧ (createTransaction st t).products = st.products
    ∧ debtOf (createTransaction st t) t.customerId =
        debtOf st t.customerId + (if 0 < t.balance then t.balance else 0) := by
  refine ⟨rfl, ?_, ?_⟩
  · show t.items.foldl _ st.products = st.products
    have hgen : ∀ (items : List SaleItem),
        (∀ item ∈ items, st.products.find? (fun p => p.id == item.productId) = none) →
        items.foldl (fun ps item => setFirst (fun p => p.id == item.productId)
          (fun p => { p with stock := p.stock - item.quantity }) ps) st.products
          = st.products := by
      intro items
      induction items with
      | nil => intro _; rfl
      | cons i is ih =>
        intro hall
        rw [List.foldl_cons, setFirst_of_find?_none (hall i (by simp))]
        exact ih (fun j hj => hall j (by simp [hj]))
    exact hgen t.items h
  · rw [debtOf_createTransaction_self st t hex]
    split_ifs with hb
    · rfl
    · ring

/-- Witness for C7: the amended behaviour at the concrete missing-product sale. -/
theorem C7_witness :
    (createTransaction baseState saleMissingProduct).transactions
        = saleMissingProduct :: baseState.transactions
    ∧ (createTransaction baseState saleMissingProduct).products = baseState.products
    ∧ debtOf (createTransaction baseState saleMissingProduct) saleMissingProduct.customerId =
        debtOf baseState saleMissingProduct.customerId
          + (if 0 < saleMissingProduct.balance then saleMissingProduct.balance else 0) :=
  C7_missing_product_skipped baseState saleMissingProduct (by decide) (by decide)

/-- C2 counterexample: one overpaid sale (balance -5) for a customer starting
at debt 0.  The claim's equation — contributions summed exactly, with the
total floored at 0 only by payment-overpay clamping — evaluates to -5 (no
payment ever occurred, so no clamping applies), but the code leaves
`totalDebt = 0`: the divergence is caused by a sale, which the claim says
can never happen. -/
theorem C2_counterexample :
    debtOf (runOps baseState [Op.sale saleOverpaid]) "c1" = 0
    ∧ debtSpecFold 0 (eventsOf "c1" [Op.sale saleOverpaid]) = -5
    ∧ ¬ (debtOf (runOps baseState [Op.sale saleOverpaid]) "c1"
          = debtSpecFold 0 (eventsOf "c1" [Op.sale saleOverpaid])) :=
  ⟨by decide, by decide, by decide⟩

/-- C2 amended: in every state reachable by `createTransaction`,
`recordPayment` and `recordExpense` operations from a state containing the
customer with zero debt, the cached `totalDebt` equals the chronological
replay of that customer's events in which a sale contributes its balance
only when positive (overpaid sales are ignored), a payment subtracts with a
floor at 0, and an expense adds exactly; whenever no sale has a negative
balance and no payment exceeds the debt current at its turn, this replay —
and hence `totalDebt` — equals the plain sum
Σ sale.balance − Σ payment.amount + Σ expense.amount. -/
theorem C2_debt_conservation (st0 : DbState) (ops : List Op) (cid : String)
    (c0 : Customer)
    (h0 : st0.customers.find? (fun c => c.id == cid) = some c0)
    (hd : c0.totalDebt = 0) :
    debtOf (runOps st0 ops) cid = debtFold 0 (eventsOf cid ops)
    ∧ (noClampFrom 0 (eventsOf cid ops) = true →
        debtOf (runOps st0 ops) cid = plainSum (eventsOf cid ops)) := by
  have hex : existsCustomer st0 cid = true := by simp [existsCustomer, h0]
  have hdz : debtOf st0 cid = 0 := by simp [debtOf, h0, hd]
  have h1 : debtOf (runOps st0 ops) cid = debtFold 0 (eventsOf cid ops) := by
    rw [debtOf_runOps ops st0 cid hex, hdz]
  refine ⟨h1, fun hnc => ?_⟩
  rw [h1, debtFold_of_noClamp _ 0 hnc]
  ring

/-- Witness for C2: sale 8000/3000, payment 2000, expense 500 on customer
"c1" starting from debt 0. -/
theorem C2_witness :
    debtOf (runOps baseState [Op.sale saleS1,
        Op.payment "c1" 2000 (some "shop1") "p1" 20,
        Op.expense "c1" "Delivery" 500 30 (some "shop2") "e1"]) "c1"
      = debtFold 0 (eventsOf "c1" [Op.sale saleS1,
        Op.payment "c1" 2000 (some "shop1") "p1" 20,
        Op.expense "c1" "Delivery" 500 30 (some "shop2") "e1"])
    ∧ (noClampFrom 0 (eventsOf "c1" [Op.sale saleS1,
        Op.payment "c1" 2000 (some "shop1") "p1" 20,
        Op.expense "c1" "Delivery" 500 30 (some "shop2") "e1"]) = true →
      debtOf (runOps baseState [Op.sale saleS1,
        Op.payment "c1" 2000 (some "shop1") "p1" 20,
        Op.expense "c1" "Delivery" 500 30 (some "shop2") "e1"]) "c1"
        = plainSum (eventsOf "c1" [Op.sale saleS1,
          Op.payment "c1" 2000 (some "shop1") "p1" 20,
          Op.expense "c1" "Delivery" 500 30 (some "shop2") "e1"])) :=
  C2_debt_conservation baseState [Op.sale saleS1,
    Op.payment "c1" 2000 (some "shop1") "p1" 20,
    Op.expense "c1" "Delivery" 500 30 (some "shop2") "e1"] "c1" custC1
    (by decide) (by decide)

/-- C1 counterexample: from the clean state, a single payment of 10 for the
zero-debt customer "c1" is recorded as a payment event, so the statement's
last running balance is -10, while `recordPayment` clamps the cached debt at
0 — so the last running balance does not equal `customer.totalDebt` for this
sequence, refuting the claim's "any sequence". -/
theorem C1_counterexample :
    ¬ (lastRunning (computeStatement (runOps baseState
          [Op.payment "c1" 10 none "p1" 5]) "c1")
        = debtOf (runOps baseState [Op.payment "c1" 10 none "p1" 5]) "c1") := by
  decide

/-- C1 amended: starting from a state with no recorded events in which the
customer exists with `totalDebt = 0`, after any sequence of sale / payment /
expense operations in which no sale has a negative balance and no payment
exceeds the debt current at its turn (`noClampFrom`), the running balance of
the last item of the computed statement equals the customer's cached
`totalDebt`, the empty statement corresponding to `totalDebt = 0`. -/
theorem C1_statement_aggregate_consistency (st0 : DbState) (ops : List Op)
    (cid : String) (c0 : Customer)
    (h0 : st0.customers.find? (fun c => c.id == cid) = some c0)
    (hd : c0.totalDebt = 0)
    (ht : st0.transactions = []) (hp : st0.payments = []) (he : st0.expenses = [])
    (hnc : noClampFrom 0 (eventsOf cid ops) = true) :
    lastRunning (computeStatement (runOps st0 ops) cid)
      = debtOf (runOps st0 ops) cid := by
  have hex : existsCustomer st0 cid = true := by simp [existsCustomer, h0]
  have hdz : debtOf st0 cid = 0 := by simp [debtOf, h0, hd]
  have hls0 : ledgerSum st0 cid = 0 := by
    unfold ledgerSum saleSum paySum expSum
    rw [ht, hp, he]
    rfl
  rw [lastRunning_computeStatement, ledgerSum_runOps ops st0 cid hex, hls0,
    debtOf_runOps ops st0 cid hex, hdz, debtFold_of_noClamp _ 0 hnc]

/-- Witness for C1: the end-to-end scenario sale 8000/3000, payment 2000,
expense 500 — last running balance and cached debt agree (both 3500). -/
theorem C1_witness :
    lastRunning (computeStatement (runOps baseState [Op.sale saleS1,
        Op.payment "c1" 2000 (some "shop1") "p2" 20,
        Op.expense "c1" "Delivery" 500 30 (some "shop2") "e2"]) "c1")
      = debtOf (runOps baseState [Op.sale saleS1,
        Op.payment "c1" 2000 (some "shop1") "p2" 20,
        Op.expense "c1" "Delivery" 500 30 (some "shop2") "e2"]) "c1" :=
  C1_statement_aggregate_consistency baseState [Op.sale saleS1,
    Op.payment "c1" 2000 (some "shop1") "p2" 20,
    Op.expense "c1" "Delivery" 500 30 (some "shop2") "e2"] "c1" custC1
    (by decide) (by decide) rfl rfl rfl (by decide)

/-- C3: the statement computation merges the customer's sales, payments and
expenses, sorts the merged rows ascending by event date with a stable —
hence deterministic — tie-break that preserves the merge order within every
date, gives each row the contribution `sale.balance`, `-payment.amount` or
`+expense.amount`, computes `runningBalance` as the prefix sums of the
sorted contributions, and produces the summary
`totalBilled = Σ sale.totalAmount + Σ expense.amount`,
`totalPaid = Σ payment.amount` (gross sale amounts in the billing total,
unpaid balances in the running balance). -/
theorem C3_computeStatement_correct (st : DbState) (cid : String) :
    ((computeStatement st cid).map (fun i => i.date)).Sorted (· ≤ ·)
    ∧ List.Perm ((computeStatement st cid).map dropRunning) (mergedItems st cid)
    ∧ (∀ d : Int, ((computeStatement st cid).filter (fun i => i.date == d)).map dropRunning
        = (mergedItems st cid).filter (fun i => i.date == d))
    ∧ (∀ t : Transaction, (saleToItem t).balanceChange = t.balance)
    ∧ (∀ p : PaymentRecord, (paymentToItem p).balanceChange = -p.amount)
    ∧ (∀ e : ExpenseRecord, (expenseToItem e).balanceChange = e.amount)
    ∧ (computeStatement st cid).map (fun i => i.runningBalance)
        = prefixSums ((sortStatement (mergedItems st cid)).map (fun i => i.balanceChange))
    ∧ statementSummary st cid =
        (((st.transactions.filter (fun t => t.customerId == cid)).map
            (fun t => t.totalAmount)).sum
          + ((st.expenses.filter (fun e => e.customerId == cid)).map
            (fun e => e.amount)).sum,
         ((st.payments.filter (fun p => p.customerId == cid)).map
            (fun p => p.amount)).sum) := by
  refine ⟨sorted_dates_computeStatement st cid,
    perm_dropRunning_computeStatement st cid, ?_,
    fun t => rfl, fun p => rfl, fun e => rfl,
    running_computeStatement st cid, statementSummary_eq st cid⟩
  intro d
  have hcomp : ((fun (i : StatementItem) => i.date == d) ∘ dropRunning)
      = fun (i : StatementItem) => i.date == d := funext fun i => rfl
  have h1 : ((computeStatement st cid).filter (fun i => i.date == d)).map dropRunning
      = ((computeStatement st cid).map dropRunning).filter (fun i => i.date == d) := by
    rw [List.filter_map, hcomp]
  rw [h1]
  unfold computeStatement
  rw [map_dropRunning_withRunning]
  have h2 : ((sortStatement (mergedItems st cid)).map dropRunning).filter
      (fun i => i.date == d)
      = ((sortStatement (mergedItems st cid)).filter (fun i => i.date == d)).map
          dropRunning := by
    rw [List.filter_map, hcomp]
  rw [h2, filter_date_sortStatement]
  have h3 : ((mergedItems st cid).filter (fun i => i.date == d)).map dropRunning
      = ((mergedItems st cid).map dropRunning).filter (fun i => i.date == d) := by
    rw [List.filter_map, hcomp]
  rw [h3, map_dropRunning_mergedItems]

end Crediflow
